import Mathlib

/-!
Verification of the multi-source scraping-and-aggregation engine of
happyfestivegiftsApi, shallowly embedded from
`src/controllers/productsController.js` (the optimized controller) and the
legacy handlers in `src/unnamed/part_000`.

Machine numbers (prices, scores) are modelled as rationals, strings as Lean
strings, and the asynchronous orchestration as explicit settled outcomes with
explicit settle times.
-/

namespace HappyFestive

/-- Canonical product record pushed by the source extractors
(`scrapeAmazon` / `scrapeMyntra` in `productsController.js`). -/
structure Product where
  image : String
  title : String
  price : ℚ
  rating : String
  offprice : ℚ
  discount : String
  href : String
  source : String
  score : ℚ
deriving DecidableEq, Repr

/-! ### String helpers embedding the JavaScript primitives used by the code -/

/-- JavaScript `String.prototype.toLowerCase` (ASCII-faithful model). -/
def lowerStr (s : String) : String := ⟨s.toList.map Char.toLower⟩

/-- JavaScript `s.substring(0, n)`. -/
def jsTake (s : String) (n : ℕ) : String := ⟨s.toList.take n⟩

/-- JavaScript `String.prototype.trim`: drop whitespace from both ends. -/
def jsTrim (s : String) : String :=
  ⟨((s.toList.dropWhile Char.isWhitespace).reverse.dropWhile
      Char.isWhitespace).reverse⟩

/-- Does `needle` occur at the head of `hay`? (helper for the substring test) -/
def matchesAt : List Char → List Char → Bool
  | [], _ => true
  | _ :: _, [] => false
  | a :: as, b :: bs => a == b && matchesAt as bs

/-- Does `needle` occur anywhere inside `hay`? -/
def hasSub (needle : List Char) : List Char → Bool
  | [] => needle.isEmpty
  | b :: bs => matchesAt needle (b :: bs) || hasSub needle bs

/-- JavaScript `hay.includes(needle)`. -/
def jsIncludes (hay needle : String) : Bool := hasSub needle.toList hay.toList

/-- Digit run to a natural number (used by the `parseFloat` model). -/
def digitsVal (l : List Char) : ℕ :=
  l.foldl (fun acc c => acc * 10 + (c.toNat - 48)) 0

/-- JavaScript `parseFloat` restricted to the shapes produced by the price
normalizers: leading digits, an optional decimal point with following digits,
anything after that ignored; `none` models `NaN`. -/
def parseFloatQ (s : String) : Option ℚ :=
  let l := s.toList
  let intPart := l.takeWhile Char.isDigit
  let rest := l.dropWhile Char.isDigit
  match rest with
  | '.' :: r2 =>
    let fracPart := r2.takeWhile Char.isDigit
    if intPart.isEmpty && fracPart.isEmpty then none
    else some ((digitsVal intPart : ℚ) + (digitsVal fracPart : ℚ) / ((10 : ℚ) ^ fracPart.length))
  | _ => if intPart.isEmpty then none else some ((digitsVal intPart : ℚ))

/-- JavaScript truthiness-based `parseFloat(p) > 0` test (`NaN > 0` is false). -/
def parsePos (s : String) : Bool :=
  match parseFloatQ s with
  | some q => decide (0 < q)
  | none => false

/-- JavaScript `parseFloat(p) || d`: `NaN` (and `0`) fall back to `d`. -/
def parseFloatOr (s : String) (d : ℚ) : ℚ :=
  match parseFloatQ s with
  | some q => if q = 0 then d else q
  | none => d

/-! ### Relevance scorer — `calculateRelevanceScore` (productsController.js 383-406) -/

/-- `calculateRelevanceScore(title, search, price)`: +10 per search term found
in the lowercased title, +20 if the whole lowercased search phrase occurs,
plus `Math.max(0, 50 - Math.abs(price - 1000) / 50)`. -/
def calculateRelevanceScore (title search : String) (price : ℚ) : ℚ :=
  let searchTerms := (lowerStr search).splitOn " "
  let titleLower := lowerStr title
  let score0 : ℚ := searchTerms.foldl
    (fun acc term => if jsIncludes titleLower term then acc + 10 else acc) 0
  let score1 : ℚ := if jsIncludes titleLower (lowerStr search) then score0 + 20 else score0
  score1 + max 0 (50 - |price - 1000| / 50)

/-- The scoring policy exactly as the specification words it: 10 points per
space-split, case-insensitive query term occurring as a substring of the
title, 20 additional points if the full query phrase occurs verbatim, plus
`max(0, 50 - |price - 1000| / 50)`. Stated independently of
`calculateRelevanceScore` so the two can be compared. -/
def specRelevanceScore (title search : String) (price : ℚ) : ℚ :=
  10 * (((lowerStr search).splitOn " ").filter
      (fun t => jsIncludes (lowerStr title) t)).length
    + (if jsIncludes (lowerStr title) (lowerStr search) then 20 else 0)
    + max 0 (50 - |price - 1000| / 50)

/-! ### Price-text normalization (Myntra 195-234, Amazon 319-336) -/

/-- Myntra's `priceText.replace(/[^\d]/g, "")`: keep digits only — the
decimal separator is also removed. -/
def myntraPriceClean (s : String) : String :=
  ⟨s.toList.filter Char.isDigit⟩

/-- Amazon's `priceText.replace(/[^\d.]/g, "") || "0"`: keep digits and the
decimal point; an empty result falls back to `"0"`. -/
def amazonPriceClean (s : String) : String :=
  let t : String := ⟨s.toList.filter (fun c => c.isDigit || c == '.')⟩
  if t = "" then "0" else t

/-- The Myntra per-candidate pipeline (productsController.js 183-234) for a
candidate element carrying just a title and a price text (no strike price,
discount badge, rating, image or link — their selector chains yield the
defaults the code supplies). Returns `none` when the candidate is skipped. -/
def myntraCandidate (search title priceText : String) : Option Product :=
  if title = "" then none
  else
    let price := myntraPriceClean priceText
    if title ≠ "" && price ≠ "" && parsePos price then
      some
        { image := "https://images.unsplash.com/photo-1513475382585-d06e58bcb0e0?w=300&h=300&fit=crop"
          title := jsTake title 200
          price := parseFloatOr price 0
          rating := "No rating"
          offprice := parseFloatOr price (parseFloatOr price 0)
          discount := "0% off"
          href := "#"
          source := "myntra"
          score := calculateRelevanceScore title search (parseFloatOr price 0) }
    else none

/-- The Amazon per-candidate pipeline (productsController.js 305-351) for a
candidate element carrying just a title and a price text. Returns `none`
when the candidate is skipped. -/
def amazonCandidate (search title priceText : String) : Option Product :=
  if title = "" || title.length < 3 then none
  else
    let price := amazonPriceClean priceText
    if parseFloatQ price = some 0 then none
    else if title ≠ "" && parsePos price then
      some
        { image := ""
          title := jsTake title 200
          price := parseFloatOr price 0
          rating := "No rating"
          offprice := parseFloatOr price (parseFloatOr price 0)
          discount := ""
          href := ""
          source := "amazon"
          score := calculateRelevanceScore title search (parseFloatOr price 0) }
    else none

/-! ### Merge / sort / truncate and the aggregation controller
(`exports.scrape`, productsController.js 418-512) -/

/-- The comparator `(a, b) => (b.score || 0) - (a.score || 0) || a.price - b.price`
read as a `Bool` "less-or-equal": `a` may precede `b` iff the comparator is
non-positive, i.e. score strictly greater, or equal score and price
less-or-equal. -/
def prodLe (a b : Product) : Bool :=
  decide (b.score < a.score) || (a.score == b.score && decide (a.price ≤ b.price))

/-- `merged.sort(comparator)` — a stable sort by `prodLe`. -/
def jsSort (l : List Product) : List Product := l.mergeSort prodLe

/-- One settled outcome of `Promise.allSettled` for a single source. -/
inductive Settled where
  | fulfilled (value : List Product)
  | rejected (reason : String)
deriving DecidableEq, Repr

/-- The JSON body the controller sends, flattened (`success`, `products`,
`metadata.total`, `metadata.returned`, `metadata.sources`) together with the
HTTP status code. -/
structure ScrapeResponse where
  status : ℕ
  success : Bool
  products : List Product
  total : ℕ
  returned : ℕ
  sourceAmazon : Bool
  sourceMyntra : Bool
deriving DecidableEq, Repr

/-- Per-source merge step (lines 454-474): a source contributes its products
and gets flag `true` exactly when it fulfilled with a non-empty list. -/
def processSource (s : Settled) : List Product × Bool :=
  match s with
  | .fulfilled v => if v.length > 0 then (v, true) else ([], false)
  | .rejected _ => ([], false)

/-- The merged list before sorting: Amazon's contribution then Myntra's. -/
def mergedOf (amazonP myntraP : Settled) : List Product :=
  (processSource amazonP).1 ++ (processSource myntraP).1

/-- The success path of `exports.scrape` after both promises settled:
merge, sort by relevance then price, truncate to 100, report flags. -/
def scrapeRespond (amazonP myntraP : Settled) : ScrapeResponse :=
  let merged := mergedOf amazonP myntraP
  { status := 200
    success := true
    products := (jsSort merged).take 100
    total := merged.length
    returned := min merged.length 100
    sourceAmazon := (processSource amazonP).2
    sourceMyntra := (processSource myntraP).2 }

/-- The `catch` path (lines 496-511): a 500 response with an empty product
list and both source flags false. -/
def scrapeErrorResponse : ScrapeResponse :=
  { status := 500
    success := false
    products := []
    total := 0
    returned := 0
    sourceAmazon := false
    sourceMyntra := false }

/-- The overall deadline in milliseconds (line 443). -/
def scrapeDeadline : ℕ := 20000

/-- `Promise.race([Promise.allSettled([amazon, myntra]), timeout])`
(lines 437-449): the pair of settled outcomes is delivered only if both
sources settle strictly before the deadline; otherwise the race rejects with
the timeout error, discarding any outcome that had already settled. `tA`
and `tM` are the settle times of the two sources. -/
def raceAllSettled (amazonP myntraP : Settled) (tA tM deadline : ℕ) :
    Except String (Settled × Settled) :=
  if max tA tM < deadline then .ok (amazonP, myntraP)
  else .error "Scraping timeout exceeded"

/-- `exports.scrape` (lines 418-512): empty search gives a 400; a rejected
race gives the 500 catch path; otherwise the merge/sort/truncate response. -/
def scrapeController (search : String) (race : Except String (Settled × Settled)) :
    ScrapeResponse :=
  if search = "" || (jsTrim search).length = 0 then
    { status := 400, success := false, products := [], total := 0, returned := 0
      sourceAmazon := false, sourceMyntra := false }
  else
    match race with
    | .ok (a, m) => scrapeRespond a m
    | .error _ => scrapeErrorResponse

/-! ### Retrying executor — `safeScrape` (productsController.js 50-101) -/

/-- What a JavaScript async function can settle its promise with: a value, a
thrown error, or `undefined` when it falls off the end of its body. -/
inductive JsOutcome (α : Type) where
  | ok (a : α)
  | err (msg : String)
  | undef
deriving DecidableEq, Repr

/-- Observable trace of one `safeScrape` call: its outcome, the number of
attempts performed (calls of the scrape operation) and the number of pages
released (the `finally` close per attempt). -/
structure ScrapeRun (α : Type) where
  result : JsOutcome α
  attempts : ℕ
  releases : ℕ
deriving DecidableEq, Repr

/-- The terminal error message (line 84-86). -/
def scrapeFailMsg (source : String) (maxRetries : ℕ) (e : String) : String :=
  "Failed to scrape " ++ source ++ " after " ++ toString maxRetries ++
    " attempts: " ++ e

/-- The `for (let attempt = 1; attempt <= maxRetries; attempt++)` loop:
`fuel = maxRetries - attempt + 1` iterations remain. Each iteration acquires
a fresh page, runs `op attempt`, and the `finally` block releases the page on
every exit path. On error at the last attempt the wrapped error is thrown;
on earlier errors the loop backs off and continues. Falling out of the loop
returns `undefined`. -/
def safeScrapeGo (op : ℕ → Except String α) (source : String) (maxRetries : ℕ) :
    ℕ → ℕ → ScrapeRun α
  | 0, _ => ⟨.undef, 0, 0⟩
  | fuel + 1, attempt =>
    match op attempt with
    | .ok a => ⟨.ok a, 1, 1⟩
    | .error e =>
      if attempt == maxRetries then ⟨.err (scrapeFailMsg source maxRetries e), 1, 1⟩
      else
        let r := safeScrapeGo op source maxRetries fuel (attempt + 1)
        ⟨r.result, r.attempts + 1, r.releases + 1⟩

/-- `safeScrape(scrapeFunction, source, maxRetries)`: run the attempt loop
starting at attempt 1. -/
def safeScrape (op : ℕ → Except String α) (source : String) (maxRetries : ℕ) :
    ScrapeRun α :=
  safeScrapeGo op source maxRetries maxRetries 1

/-- Reading `.length` on a settled value: yields a number only for a real
list; reading it on `undefined` faults (`none`). -/
def readLength (r : JsOutcome (List Product)) : Option ℕ :=
  match r with
  | .ok l => some l.length
  | _ => none

/-! ### Result cache — `searchCache` (productsController.js 16-20, 244-250, 367-370) -/

/-- One cache slot: the stored product list and its absolute expiry time. -/
structure CacheEntry where
  value : List Product
  expiresAt : ℕ
deriving DecidableEq, Repr

/-- The in-memory store keyed by the composite cache key. -/
def Cache : Type := List (String × CacheEntry)

/-- `SCRAPING_CONFIG.cacheTTL` (seconds). -/
def cacheTTL : ℕ := 300

/-- `searchCache.set(key, products)` with the standard TTL: the new entry
shadows any previous entry for the key. -/
def cacheSet (c : Cache) (k : String) (v : List Product) (now : ℕ) : Cache :=
  (k, ⟨v, now + cacheTTL⟩) :: c

/-- `searchCache.get(key)` at time `now`: an entry whose expiry lies strictly
in the past is a miss (node-cache checks `data.t < Date.now()`). -/
def cacheGet (c : Cache) (k : String) (now : ℕ) : Option (List Product) :=
  match c.find? (fun e => e.1 == k) with
  | some e => if e.2.expiresAt < now then none else some e.2.value
  | none => none

/-- The call-site guard `if (products.length > 0) searchCache.set(...)`:
only non-empty results are written. -/
def cacheStoreResults (c : Cache) (k : String) (products : List Product) (now : ℕ) :
    Cache :=
  if products.length > 0 then cacheSet c k products now else c

/-! ### Per-source deduplication -/

/-- JavaScript `Map.prototype.set` on an association list: an existing key
keeps its position but its value is overwritten; a new key is appended. -/
def mapSet (m : List (String × Product)) (k : String) (v : Product) :
    List (String × Product) :=
  if m.any (fun e => e.1 == k) then
    m.map (fun e => if e.1 == k then (k, v) else e)
  else m ++ [(k, v)]

/-- `new Map(results.map(item => [item.title.toLowerCase(), item]))`
(productsController.js 357-362): insert every product keyed by its
lowercased title. -/
def buildTitleMap (l : List Product) : List (String × Product) :=
  l.foldl (fun m item => mapSet m (lowerStr item.title) item) []

/-- `Array.from(map.values())`: Amazon's within-source deduplication. -/
def amazonDedup (l : List Product) : List Product :=
  (buildTitleMap l).map Prod.snd

/-- Flipkart's per-candidate step (src/unnamed/part_000 lines 233-256),
restricted to the title and price text of each candidate: push unless an
entry with the same exact title and normalized price already exists, and
only when the normalized price is positive. -/
def flipkartStep (acc : List (String × String)) (c : String × String) :
    List (String × String) :=
  if c.1 ≠ "" && c.2 ≠ "" then
    let cp0 : String := ⟨c.2.toList.filter (fun ch => ch.isDigit || ch == '.')⟩
    let cleanPrice := if cp0 = "" then "0" else cp0
    let already := acc.any (fun p => p.1 == c.1 && p.2 == cleanPrice)
    if !already && parsePos cleanPrice then acc ++ [(c.1, cleanPrice)] else acc
  else acc

/-- Flipkart's result list over a sequence of (title, price text) candidates. -/
def flipkartResults (cands : List (String × String)) : List (String × String) :=
  cands.foldl flipkartStep []

/-- The Myntra list-level extraction (productsController.js 179-241) over
title/price-text candidates: per-candidate processing (no deduplication),
then the relevance/price sort. -/
def myntraExtract (search : String) (cands : List (String × String)) :
    List Product :=
  jsSort (cands.filterMap (fun c => myntraCandidate search c.1 c.2))

/-! ### Sample data used by concrete counterexamples and witnesses -/

/-- A sample product as pushed by the Amazon extractor. -/
def sampleMouse : Product :=
  ⟨"", "Wireless Mouse", 999, "No rating", 999, "", "", "amazon", 30⟩

/-- First of two candidates sharing a lowercased title. -/
def dupFirst : Product :=
  ⟨"", "Gift Mug", 500, "No rating", 500, "", "", "amazon", 10⟩

/-- Second of two candidates sharing a lowercased title (different case,
price and score). -/
def dupSecond : Product :=
  ⟨"", "gift mug", 700, "No rating", 700, "", "", "amazon", 8⟩

/-! ## Theorems -/

lemma foldl_add_ten (p : String → Bool) :
    ∀ (l : List String) (a : ℚ),
      l.foldl (fun acc t => if p t then acc + 10 else acc) a
        = a + 10 * (l.filter p).length := by
  intro l
  induction l with
  | nil => intro a; simp
  | cons h t ih =>
    intro a
    by_cases hp : p h
    · simp only [List.foldl_cons, List.filter_cons, hp, if_pos, ih,
        List.length_cons]
      push_cast
      ring
    · simp [hp, ih]

/-- Claim C4: the relevance score is 10 points per space-split,
case-insensitive query term occurring as a substring of the title, plus 20
additional points if the full query phrase occurs verbatim, plus the
price-proximity component `max(0, 50 - |price - 1000| / 50)` peaking at the
reference price 1000. -/
theorem relevance_score_matches_spec (title search : String) (price : ℚ) :
    calculateRelevanceScore title search price
      = specRelevanceScore title search price := by
  simp only [calculateRelevanceScore, specRelevanceScore]
  rw [foldl_add_ten]
  by_cases hp : jsIncludes (lowerStr title) (lowerStr search)
  · simp only [hp, if_pos]
    ring
  · simp only [hp, if_neg, Bool.false_eq_true, not_false_eq_true]
    ring

/-- Claim C5 counterexample: Myntra's price normalization strips the decimal
separator as well, so the candidate with price text `"₹1,299.00"` enters the
output with price 129900, not 1299 as the claim states. -/
theorem myntra_price_cex :
    (myntraCandidate "mouse" "Brand X Mouse" "₹1,299.00").map Product.price
      = some 129900 ∧ (129900 : ℚ) ≠ 1299 := by
  constructor
  · rfl
  · norm_num

lemma parseFloatQ_1299 : parseFloatQ "1299.00" = some 1299 := by
  have h : parseFloatQ "1299.00"
      = some ((1299 : ℕ) + ((0 : ℕ) : ℚ) / (10 : ℚ) ^ (2 : ℕ)) := rfl
  rw [h]; norm_num

lemma amazonClean_1299 : amazonPriceClean "₹1,299.00" = "1299.00" := rfl

lemma parsePos_1299 : parsePos "1299.00" = true := by
  rw [parsePos, parseFloatQ_1299]
  norm_num

lemma parseFloatOr_1299 : parseFloatOr "1299.00" 0 = 1299 := by
  rw [parseFloatOr, parseFloatQ_1299]
  norm_num

/-- Claim C5 as amended: Amazon's normalization keeps digits and decimal
points, so `"₹1,299.00"` yields an included product with price 1299; Myntra's
normalization keeps digits only (the decimal separator is stripped too), so
the same text yields an included product with price 129900; in both sources a
price text parsing to zero (`"₹0"`) is excluded. -/
theorem price_normalization_amended :
    (amazonCandidate "mouse" "Brand X Mouse" "₹1,299.00").map Product.price
        = some 1299 ∧
    (myntraCandidate "mouse" "Brand X Mouse" "₹1,299.00").map Product.price
        = some 129900 ∧
    amazonCandidate "mouse" "Brand X Mouse" "₹0" = none ∧
    myntraCandidate "mouse" "Brand X Mouse" "₹0" = none := by
  refine ⟨?_, rfl, rfl, rfl⟩
  rw [amazonCandidate]
  simp only [amazonClean_1299, parseFloatQ_1299, parsePos_1299, parseFloatOr_1299]
  norm_num
  exact ⟨_, ⟨⟨by decide, by decide⟩, by decide, rfl⟩, rfl⟩

/-- Claim C9: an operation that throws on every attempt with `maxRetries = 2`
is attempted exactly twice, releases its page exactly once per attempt (two
releases), and fails with the terminal error naming the source and the two
attempts; it never succeeds and never makes a third attempt. -/
theorem retry_exhaustion (op : ℕ → Except String (List Product))
    (source : String) (h : ∀ n, ∃ e, op n = .error e) :
    ∃ e, op 2 = .error e ∧
      safeScrape op source 2 = ⟨.err (scrapeFailMsg source 2 e), 2, 2⟩ := by
  obtain ⟨e1, h1⟩ := h 1
  obtain ⟨e2, h2⟩ := h 2
  refine ⟨e2, h2, ?_⟩
  simp [safeScrape, safeScrapeGo, h1, h2]

/-- Claim C9 witness: the always-failing operation at `maxRetries = 2`. -/
theorem retry_exhaustion_witness :
    (∀ n : ℕ,
        ∃ e, (fun _ => (Except.error "nav timeout" : Except String (List Product))) n
          = Except.error e) ∧
    ∃ e, (fun _ => (Except.error "nav timeout" : Except String (List Product))) 2
          = Except.error e ∧
      safeScrape (fun _ => (Except.error "nav timeout" : Except String (List Product)))
          "Amazon" 2
        = ⟨.err (scrapeFailMsg "Amazon" 2 e), 2, 2⟩ :=
  ⟨fun _ => ⟨"nav timeout", rfl⟩,
    retry_exhaustion _ "Amazon" (fun _ => ⟨"nav timeout", rfl⟩)⟩

/-- Claim C10: with `maxRetries = 0` the attempt loop body never runs, so
`safeScrape` performs zero attempts (and zero page releases) and settles with
`undefined` — neither a product list nor an error — and a caller reading
`.length` on that settled value faults. -/
theorem zero_retries_undefined (op : ℕ → Except String (List Product))
    (source : String) :
    safeScrape op source 0 = ⟨.undef, 0, 0⟩ ∧
      readLength (safeScrape op source 0).result = none := by
  exact ⟨rfl, rfl⟩

/-- Claim C7: the cache stores only non-empty results (an empty list is never
written); a non-empty list stored under a key is returned identically by a
read before its TTL expiry, and a read after the expiry is a miss. -/
theorem cache_roundtrip (c : Cache) (k : String) (products : List Product)
    (now t : ℕ) (hne : products ≠ []) :
    (∀ (c2 : Cache) (k2 : String) (now2 : ℕ),
        cacheStoreResults c2 k2 [] now2 = c2) ∧
    (t ≤ now + cacheTTL →
      cacheGet (cacheStoreResults c k products now) k t = some products) ∧
    (now + cacheTTL < t →
      cacheGet (cacheStoreResults c k products now) k t = none) := by
  have hlen : products.length > 0 := List.length_pos.mpr hne
  refine ⟨?_, ?_, ?_⟩
  · intro c2 k2 now2
    simp [cacheStoreResults]
  · intro ht
    simp [cacheStoreResults, hlen, cacheSet, cacheGet, List.find?,
      Nat.not_lt.mpr ht]
  · intro ht
    simp [cacheStoreResults, hlen, cacheSet, cacheGet, List.find?, ht]

/-- Claim C7 witness: a singleton result cached at time 0 and read at the
TTL boundary. -/
theorem cache_roundtrip_witness :
    ([sampleMouse] : List Product) ≠ [] ∧
    cacheGet (cacheStoreResults [] "amazon:mouse::" [sampleMouse] 0)
        "amazon:mouse::" 300
      = some [sampleMouse] :=
  ⟨by simp,
    (cache_roundtrip [] "amazon:mouse::" [sampleMouse] 0 300 (by simp)).2.1
      (by norm_num [cacheTTL])⟩

/-- Claim C1 counterexample: Amazon rejected, Myntra fulfilled with an empty
list — Myntra's extraction succeeded, yet its per-source flag is `false`
(the code requires a non-empty list for a `true` flag), contradicting the
claim that the successful source's flag is `true`. -/
theorem partial_failure_flag_cex :
    (scrapeController "shoes"
        (.ok (.rejected "net::ERR_TIMED_OUT", .fulfilled []))).sourceMyntra
        = false ∧
    (scrapeController "shoes"
        (.ok (.rejected "net::ERR_TIMED_OUT", .fulfilled []))).success = true :=
  ⟨rfl, rfl⟩

/-- Claim C1 as amended: if one source rejects after exhausting retries and
the other fulfils with a **non-empty** product list, the aggregate does not
raise: it returns the successful source's products (sorted and truncated),
the failed source's flag is `false` and the successful source's flag is
`true`. (A source that fulfils with an empty list gets flag `false`.) -/
theorem partial_failure_isolation (e : String) (v : List Product)
    (hv : v ≠ []) :
    scrapeController "shoes" (.ok (.rejected e, .fulfilled v))
      = { status := 200, success := true, products := (jsSort v).take 100,
          total := v.length, returned := min v.length 100,
          sourceAmazon := false, sourceMyntra := true } ∧
    scrapeController "shoes" (.ok (.fulfilled v, .rejected e))
      = { status := 200, success := true, products := (jsSort v).take 100,
          total := v.length, returned := min v.length 100,
          sourceAmazon := true, sourceMyntra := false } := by
  have hlen : v.length > 0 := List.length_pos.mpr hv
  constructor <;>
    simp [scrapeController, scrapeRespond, mergedOf, processSource, hlen] <;>
    decide

/-- Claim C1 witness: a rejected Amazon and a one-product Myntra result. -/
theorem partial_failure_isolation_witness :
    ([sampleMouse] : List Product) ≠ [] ∧
    scrapeController "shoes" (.ok (.rejected "boom", .fulfilled [sampleMouse]))
      = { status := 200, success := true,
          products := (jsSort [sampleMouse]).take 100,
          total := 1, returned := 1,
          sourceAmazon := false, sourceMyntra := true } :=
  ⟨by simp, (partial_failure_isolation "boom" [sampleMouse] (by simp)).1⟩

/-- Claim C2 counterexample: when both sources fulfil with empty lists the
response is a success with zero products, but both per-source flags are
`false`, not `true` as the claim states. -/
theorem empty_sources_flags_cex :
    (scrapeController "shoes"
        (.ok (.fulfilled [], .fulfilled []))).sourceAmazon = false ∧
    (scrapeController "shoes"
        (.ok (.fulfilled [], .fulfilled []))).sourceMyntra = false :=
  ⟨rfl, rfl⟩

/-- Claim C2 as amended: when both sources fulfil with empty product lists
the aggregate result is a success with `products = []`, `total = 0` — and
both per-source flags `false` (the code reports `true` only for a source
that fulfilled with a non-empty list). -/
theorem empty_sources_amended (search : String) (h1 : search ≠ "")
    (h2 : (jsTrim search).length ≠ 0) :
    scrapeController search (.ok (.fulfilled [], .fulfilled []))
      = { status := 200, success := true, products := [], total := 0,
          returned := 0, sourceAmazon := false, sourceMyntra := false } := by
  simp [scrapeController, h1, h2, scrapeRespond, mergedOf, processSource, jsSort]

/-- Claim C2 witness: the search term "shoes" with two empty fulfilments. -/
theorem empty_sources_amended_witness :
    ("shoes" : String) ≠ "" ∧
    scrapeController "shoes" (.ok (.fulfilled [], .fulfilled []))
      = { status := 200, success := true, products := [], total := 0,
          returned := 0, sourceAmazon := false, sourceMyntra := false } :=
  ⟨by decide, empty_sources_amended "shoes" (by decide) (by decide)⟩

/-- Claim C8 counterexample: Amazon settled (fulfilled, non-empty) at 0 ms
while Myntra is still pending when the 20000 ms deadline elapses (it would
settle at 30000 ms) — the code rejects the whole race and answers the 500
catch response with an empty product list and `sources.amazon = false`,
instead of keeping the completed Amazon result as the claim states; and it
fails outright even though one source had already settled. -/
theorem deadline_discards_completed_cex :
    scrapeController "shoes"
        (raceAllSettled (.fulfilled [sampleMouse]) (.fulfilled [])
          0 30000 scrapeDeadline)
      = scrapeErrorResponse ∧
    scrapeErrorResponse.sourceAmazon = false ∧
    scrapeErrorResponse.products = [] ∧
    scrapeErrorResponse.status = 500 :=
  ⟨rfl, rfl, rfl, rfl⟩

/-- Claim C8 as amended: the race is all-or-nothing — if the deadline elapses
before **all** sources settle, the request fails outright with the timeout
error (500, empty products, both flags false), discarding even sources that
already completed; the settled outcomes are delivered only when every source
settles before the deadline. -/
theorem deadline_all_or_nothing (a m : Settled) (tA tM : ℕ) :
    (scrapeDeadline ≤ max tA tM →
      scrapeController "shoes" (raceAllSettled a m tA tM scrapeDeadline)
        = scrapeErrorResponse) ∧
    (max tA tM < scrapeDeadline →
      scrapeController "shoes" (raceAllSettled a m tA tM scrapeDeadline)
        = scrapeRespond a m) := by
  constructor
  · intro h
    rw [raceAllSettled, if_neg (by omega)]
    rfl
  · intro h
    rw [raceAllSettled, if_pos h]
    rfl

/-- Claim C8 witness: one source settled at 0 ms, the other at 30000 ms. -/
theorem deadline_all_or_nothing_witness :
    scrapeDeadline ≤ max 0 30000 ∧
    scrapeController "shoes"
        (raceAllSettled (.fulfilled [sampleMouse]) (.fulfilled [])
          0 30000 scrapeDeadline)
      = scrapeErrorResponse :=
  ⟨by decide,
    (deadline_all_or_nothing (.fulfilled [sampleMouse]) (.fulfilled [])
        0 30000).1 (by decide)⟩

lemma prodLe_trans (a b c : Product) (hab : prodLe a b) (hbc : prodLe b c) :
    prodLe a c := by
  simp only [prodLe, Bool.or_eq_true, decide_eq_true_eq, Bool.and_eq_true,
    beq_iff_eq] at hab hbc ⊢
  rcases hab with h1 | ⟨h1, h2⟩ <;> rcases hbc with h3 | ⟨h3, h4⟩
  · exact Or.inl (h3.trans h1)
  · exact Or.inl (by rw [← h3]; exact h1)
  · exact Or.inl (by rw [h1]; exact h3)
  · exact Or.inr ⟨h1.trans h3, h2.trans h4⟩

lemma prodLe_total (a b : Product) : prodLe a b || prodLe b a := by
  simp only [prodLe, Bool.or_eq_true, decide_eq_true_eq, Bool.and_eq_true,
    beq_iff_eq]
  rcases lt_trichotomy a.score b.score with h | h | h
  · exact Or.inr (Or.inl h)
  · rcases le_total a.price b.price with hp | hp
    · exact Or.inl (Or.inr ⟨h, hp⟩)
    · exact Or.inr (Or.inr ⟨h.symm, hp⟩)
  · exact Or.inl (Or.inl h)

/-- Claim C3: the aggregate's product list is sorted by relevance score
descending with ties broken by price ascending (the `prodLe` order), and is
the 100-element truncation of a sorted permutation of the merged list, so its
length is `min 100 total`. -/
theorem merged_sorted_truncated (a m : Settled) :
    List.Pairwise (fun x y => prodLe x y = true) (scrapeRespond a m).products ∧
    (scrapeRespond a m).products.length = min 100 (mergedOf a m).length ∧
    (scrapeRespond a m).products.Sublist (jsSort (mergedOf a m)) ∧
    List.Perm (jsSort (mergedOf a m)) (mergedOf a m) := by
  have hp : (scrapeRespond a m).products = (jsSort (mergedOf a m)).take 100 :=
    rfl
  have hperm : List.Perm (jsSort (mergedOf a m)) (mergedOf a m) :=
    List.mergeSort_perm _ _
  have hsorted :
      List.Pairwise (fun x y => prodLe x y = true) (jsSort (mergedOf a m)) :=
    List.sorted_mergeSort prodLe_trans prodLe_total _
  refine ⟨?_, ?_, ?_, hperm⟩
  · rw [hp]
    exact hsorted.sublist (List.take_sublist _ _)
  · rw [hp, List.length_take, hperm.length_eq]
  · rw [hp]
    exact List.take_sublist _ _

lemma mapSet_forall {P : String × Product → Prop}
    (m : List (String × Product)) (k : String) (v : Product)
    (hm : ∀ e ∈ m, P e) (hkv : P (k, v)) :
    ∀ e ∈ mapSet m k v, P e := by
  unfold mapSet
  split
  · intro e he
    obtain ⟨x, hx, hxe⟩ := List.mem_map.mp he
    by_cases hk : x.1 == k
    · rw [if_pos hk] at hxe
      rw [← hxe]
      exact hkv
    · rw [if_neg hk] at hxe
      rw [← hxe]
      exact hm x hx
  · intro e he
    rcases List.mem_append.mp he with h | h
    · exact hm e h
    · rw [List.mem_singleton.mp h]
      exact hkv

lemma buildTitleMap_forall (P : String × Product → Prop) :
    ∀ (l : List Product) (m : List (String × Product)),
      (∀ e ∈ m, P e) → (∀ item ∈ l, P (lowerStr item.title, item)) →
      ∀ e ∈ l.foldl (fun acc item => mapSet acc (lowerStr item.title) item) m,
        P e := by
  intro l
  induction l with
  | nil =>
    intro m hm _
    simpa using hm
  | cons hd tl ih =>
    intro m hm hl e he
    simp only [List.foldl_cons] at he
    exact ih (mapSet m (lowerStr hd.title) hd)
      (mapSet_forall m _ hd hm (hl hd (by simp)))
      (fun item hi => hl item (by simp [hi])) e he

lemma mapSet_keys (m : List (String × Product)) (k : String) (v : Product) :
    (mapSet m k v).map Prod.fst
      = if m.any (fun e => e.1 == k) then m.map Prod.fst
        else m.map Prod.fst ++ [k] := by
  unfold mapSet
  split
  · rw [List.map_map]
    apply List.map_congr_left
    intro e _
    by_cases hk : e.1 == k
    · simp only [Function.comp_apply, if_pos hk]
      exact (beq_iff_eq.mp hk).symm
    · simp only [Function.comp_apply, if_neg hk]
  · rw [List.map_append]
    rfl

lemma buildTitleMap_keys_nodup :
    ∀ (l : List Product) (m : List (String × Product)),
      ((m.map Prod.fst).Nodup) →
      ((l.foldl (fun acc item => mapSet acc (lowerStr item.title) item) m).map
          Prod.fst).Nodup := by
  intro l
  induction l with
  | nil =>
    intro m hm
    simpa using hm
  | cons hd tl ih =>
    intro m hm
    simp only [List.foldl_cons]
    apply ih
    rw [mapSet_keys]
    by_cases hany : m.any (fun e => e.1 == lowerStr hd.title)
    · rw [if_pos hany]
      exact hm
    · rw [if_neg hany]
      refine List.Nodup.append hm (List.nodup_singleton _) ?_
      intro a ha ha2
      rw [List.mem_singleton.mp ha2] at ha
      obtain ⟨e, he, hek⟩ := List.mem_map.mp ha
      exact hany (List.any_eq_true.mpr ⟨e, he, beq_iff_eq.mpr hek⟩)

lemma amazonDedup_nodup_titles (l : List Product) :
    List.Pairwise (fun x y : Product => lowerStr x.title ≠ lowerStr y.title)
      (amazonDedup l) := by
  have hkeys : ((buildTitleMap l).map Prod.fst).Nodup :=
    buildTitleMap_keys_nodup l [] (by simp)
  have hk : ∀ e ∈ buildTitleMap l, e.1 = lowerStr e.2.title :=
    buildTitleMap_forall (fun e => e.1 = lowerStr e.2.title) l [] (by simp)
      (fun item _ => rfl)
  have hpair : (buildTitleMap l).Pairwise (fun a b => a.1 ≠ b.1) :=
    (List.pairwise_map).mp hkeys
  have hpair2 : (buildTitleMap l).Pairwise
      (fun a b => lowerStr a.2.title ≠ lowerStr b.2.title) := by
    refine hpair.imp_of_mem ?_
    intro a b ha hb hab
    rw [← hk a ha, ← hk b hb]
    exact hab
  exact (List.pairwise_map).mpr hpair2

lemma amazonDedup_mem (l : List Product) (p : Product)
    (hp : p ∈ amazonDedup l) : p ∈ l := by
  obtain ⟨e, he, hep⟩ := List.mem_map.mp hp
  have := buildTitleMap_forall (fun e => e.2 ∈ l) l [] (by simp)
    (fun item hi => hi) e he
  rw [← hep]
  exact this

/-- Claim C6 counterexample: two Amazon candidates with the same lowercased
title are collapsed, but the survivor is the **second** occurrence, not the
first as the claim states (the Map overwrites the value on key collision). -/
theorem amazon_dedup_keeps_last_cex :
    amazonDedup [dupFirst, dupSecond] = [dupSecond] ∧
    ([dupSecond] : List Product) ≠ [dupFirst] := by
  exact ⟨rfl, by decide⟩

/-- Claim C6 as amended: Amazon collapses candidates with identical
lowercased titles — its output never holds two products with the same
lowercased title and every output product comes from the input — but it
keeps the **last** occurrence (at the position where the key first appeared);
Flipkart deduplicates only on exact (title, normalized price) pairs, so two
candidates with the same title at different prices both remain; and Myntra
performs no deduplication at all, contributing both of two identically
titled candidates. -/
theorem within_source_dedup_amended :
    (∀ l : List Product,
      List.Pairwise (fun x y : Product => lowerStr x.title ≠ lowerStr y.title)
        (amazonDedup l)) ∧
    (∀ (l : List Product) (p : Product), p ∈ amazonDedup l → p ∈ l) ∧
    amazonDedup [dupFirst, dupSecond] = [dupSecond] ∧
    flipkartResults [("Gift Mug", "₹500"), ("Gift Mug", "₹700")]
      = [("Gift Mug", "500"), ("Gift Mug", "700")] ∧
    ((myntraExtract "mug" [("Gift Mug", "₹500"), ("Gift Mug", "₹500")]).map
        Product.title).count "Gift Mug" = 2 := by
  refine ⟨amazonDedup_nodup_titles, amazonDedup_mem, rfl, rfl, ?_⟩
  have hperm :
      List.Perm (myntraExtract "mug" [("Gift Mug", "₹500"), ("Gift Mug", "₹500")])
        (([("Gift Mug", "₹500"), ("Gift Mug", "₹500")] :
            List (String × String)).filterMap
          (fun c => myntraCandidate "mug" c.1 c.2)) :=
    List.mergeSort_perm _ _
  rw [List.Perm.count_eq (hperm.map Product.title)]
  rfl

/-- Claim C6 witness: the amended membership property at a concrete input. -/
theorem within_source_dedup_amended_witness :
    dupSecond ∈ ([dupFirst, dupSecond] : List Product) :=
  within_source_dedup_amended.2.1 [dupFirst, dupSecond] dupSecond
    (by rw [within_source_dedup_amended.2.2.1]; exact List.mem_singleton.mpr rfl)

end HappyFestive
